import Mathlib

/-!
Verification of the tenex-task pipeline (`src/plugins/tenex-tasks/tenex_task.ts`).

Strings of the scripting runtime are modelled as lists of characters
(`Str := List Char`); every definition below is a direct translation of the
corresponding function in the source file.
-/

/-- Runtime strings are modelled as lists of characters. -/
abbrev Str := List Char

/-- Embed a Lean string literal as a modelled runtime string. -/
def strL (s : String) : Str := s.data

/-- JavaScript `String.prototype.startsWith`: `startsWith s p` is true when
`p` is a leading segment of `s` (source line 120/121 use it on both sides). -/
def startsWith : Str → Str → Bool
  | _, [] => true
  | [], _ :: _ => false
  | a :: s, b :: p => a == b && startsWith s p

/-- JavaScript `String.prototype.toLowerCase` (ASCII case folding, as used by
the comparison on source line 119). -/
def lowerStr (s : Str) : Str := s.map Char.toLower

/-- JavaScript `String.prototype.split` with a one-character separator:
splits `s` at every occurrence of `c`; the result is always non-empty. -/
def splitOnChar (c : Char) : Str → List Str
  | [] => [[]]
  | x :: xs =>
    match splitOnChar c xs with
    | [] => [[]]
    | h :: t => if x == c then [] :: h :: t else (x :: h) :: t

/-- Model of the expression splitting a directory name on dashes and taking
the first piece (source line 121): the leading segment of a directory name,
up to the first dash. -/
def firstSegment (dir : Str) : Str := (splitOnChar '-' dir).headD []

/-- The predicate tested on each inventory entry by the `find` callback on
source lines 117–122: the disjunction of the four matching rules. -/
def matchesDir (response dir : Str) : Bool :=
  dir == response ||
  lowerStr dir == lowerStr response ||
  startsWith dir response ||
  startsWith response (firstSegment dir)

/-- The matching core of `findProjectName` (source lines 117–122):
`Array.prototype.find` returns the first inventory entry satisfying the
callback, or `undefined` (here `none`). -/
def findProjectName (response : Str) (projectDirs : List Str) : Option Str :=
  projectDirs.find? (matchesDir response)

/-- The failure data produced by `findProjectName` when no entry matches
(source lines 127–129): the `console.error` diagnostic line and the message
of the thrown `Error`. -/
structure ResolutionError where
  logMessage : Str
  thrownMessage : Str
deriving Repr, DecidableEq

/-- Model of `findProjectName` with its error path (source lines 124–130): a matched
directory is returned, otherwise the function logs the unmatched response and
throws a fixed-message error. -/
def findProjectNameE (response : Str) (projectDirs : List Str) :
    Except ResolutionError Str :=
  match findProjectName response projectDirs with
  | some dir => Except.ok dir
  | none =>
      Except.error
        { logMessage := strL ("Could not match response \"") ++ response ++
            strL ("\" to any project directory")
          thrownMessage := strL ("Could not identify project directory") }

/-- JavaScript whitespace test used by `String.prototype.trim` (restricted to
the ASCII whitespace characters relevant to the model). -/
def jsWS (c : Char) : Bool := c == ' ' || c == '\t' || c == '\n' || c == '\r'

/-- Remove trailing whitespace (the right half of `String.prototype.trim`). -/
def dropTrailingWS : Str → Str
  | [] => []
  | c :: cs =>
    let r := dropTrailingWS cs
    if r.isEmpty && jsWS c then [] else c :: r

/-- JavaScript `String.prototype.trim`: strip leading and trailing
whitespace. -/
def trimStr (s : Str) : Str := dropTrailingWS (s.dropWhile jsWS)

/-- Model of `queryOllama` (source lines 36–66): it pipes a prompt into the generation
service and returns the captured standard output, trimmed (source line 57).
The service itself is a black box, so the model takes its raw standard
output as input. -/
def queryOllama (rawStdout : Str) : Str := trimStr rawStdout

/-- Model of `getProjectDirectories` (source lines 72–87): on a successful `readdir`
(entries paired with their `isDirectory` flag) it keeps directory entries and
returns their names; on a read error it returns the empty list instead of
failing. -/
def getProjectDirectories (readdirResult : Option (List (Str × Bool))) :
    List Str :=
  match readdirResult with
  | some entries => (entries.filter (fun e => e.2)).map (fun e => e.1)
  | none => []

/-- The destructured fields of a parsed `.tenex.json` (source line 284):
each field is absent (`none`) or a string, possibly empty. -/
structure TenexConfig where
  nsec : Option Str
  eventId : Option Str
deriving Repr, DecidableEq

/-- JavaScript truthiness of an optional string field: `undefined` and the
empty string are falsy (the `!nsec || !eventId` test on source line 286). -/
def jsFalsy : Option Str → Bool
  | none => true
  | some s => s.isEmpty

/-- Model of `readTenexConfig` (source lines 138–149): a readable, parseable
descriptor file yields its config; otherwise the function throws an error
naming the project. The model takes the read/parse outcome as input. -/
def readTenexConfig (projectDir : Str) (fileContent : Option TenexConfig) :
    Except Str TenexConfig :=
  match fileContent with
  | some cfg => Except.ok cfg
  | none =>
      Except.error (strL ("Could not read .tenex.json for project ") ++ projectDir)

/-- Model of `readFileIfExists` (source lines 156–163): a missing or unreadable file
yields the empty string, never an error. The model takes the read outcome
(`none` = not found) as input. -/
def readFileIfExists (fileContent : Option Str) : Str :=
  match fileContent with
  | some content => content
  | none => []

/-- Join a list of strings with a separator (`Array.prototype.join`,
source line 184). -/
def joinSep (sep : Str) : List Str → Str
  | [] => []
  | [x] => x
  | x :: y :: xs => x ++ sep ++ joinSep sep (y :: xs)

/-- The `contextInfo` array of `createDetailedTask` (source lines 179–181):
a `<SPEC>` block is pushed when the specification document is non-empty, then
an `<ARCHITECTURE>` block when the architecture document is non-empty. -/
def contextInfo (specContent architectureContent : Str) : List Str :=
  let l1 : List Str := []
  let l2 := if specContent.isEmpty then l1
    else l1 ++ [strL ("<SPEC>\n") ++ specContent ++ strL ("</SPEC>")]
  let l3 := if architectureContent.isEmpty then l2
    else l2 ++ [strL ("<ARCHITECTURE>\n") ++ architectureContent ++ strL ("</ARCHITECTURE>")]
  l3

/-- The `contextSection` string of `createDetailedTask` (source lines
183–185): empty when there are no context blocks, otherwise an introductory
line followed by the blocks joined with blank lines. -/
def contextSection (specContent architectureContent : Str) : Str :=
  if (contextInfo specContent architectureContent).length > 0 then
    strL ("\nFor context, here are the project\x27s specification and architecture documents:\n\n") ++
      joinSep (strL ("\n\n")) (contextInfo specContent architectureContent)
  else []

/-- The task-synthesis prompt of `createDetailedTask` (source lines
187–208), with the template literal split at its two interpolations. -/
def createTaskPrompt (transcriptContent specContent architectureContent : Str) :
    Str :=
  strL ("\nYou are tasked with creating a detailed task for an LLM to work on based on the following transcript.\nThe task should include a clear title, a careful explanation, and high-level action items.\n\n") ++
  contextSection specContent architectureContent ++
  strL ("\n\n-- END OF CONTEXT --\n\nWhat follows is the task requirement, this is the user\x27s description of what needs to be speced:\n\n<TASK-DETAILS>\n") ++
  transcriptContent ++
  strL ("\n</TASK-DETAILS>\n\nCreate a detailed task with:\n1. A clear, concise title as the first line (this will be extracted as the task title) (no more than 15 words)\n2. A thorough explanation of what needs to be done\n3. Specific action items or steps to complete the task, do not include filenames, function names, or any other specific implementation details. Just a high-level action items of what is involved to accomplish this task.\n4. Any relevant technical considerations based on the context provided.\n\nProvide the title as the first line with nothing else, as we\x27ll extract just that line as the task title.\n")

/-- Model of `createDetailedTask` (source lines 172–211): builds the task-synthesis
prompt and returns the generation service response, trimmed once inside
`queryOllama` and once more on return (source line 210). The service is a
black box, so its raw standard output is an input of the model. -/
def createDetailedTask
    (transcriptContent specContent architectureContent rawStdout : Str) : Str :=
  let _prompt := createTaskPrompt transcriptContent specContent architectureContent
  trimStr (queryOllama rawStdout)

/-- Title extraction in `processTenexTask` (source lines 301–302):
the task content split on line breaks, element zero. -/
def extractTaskTitle (taskContent : Str) : Str :=
  (splitOnChar '\n' taskContent).headD []

/-- Model of `publishNostrEvent` (source lines 221–252): spawns the publication tool
and returns `false` on a non-zero exit status, `true` otherwise; the model
takes the exit status as input. -/
def publishNostrEvent (exitCode : Int) : Bool :=
  if exitCode != 0 then false else true

/-- The external world of one pipeline run: every filesystem read and every
external-process outcome that `processTenexTask` (source lines 258–331)
observes, in the order it observes them. -/
structure Env where
  transcriptPath : Str
  tenexProjectsDir : Str
  transcriptExists : Bool
  transcriptContent : Str
  readdirResult : Option (List (Str × Bool))
  findRawStdout : Str
  tenexConfigFile : Option TenexConfig
  specFile : Option Str
  architectureFile : Option Str
  taskRawStdout : Str
  publishExitCode : Int
deriving Repr, DecidableEq

/-- The observable outcome of one pipeline run: how many generation calls of
each kind were issued, what (title, body) pair reached the publication call,
the publication outcome, whether the temporary task file cleanup (source
lines 319–323) was reached, and the fatal error (source lines 327–330) if
the run aborted. -/
structure RunResult where
  resolverCalls : Nat
  synthesisCalls : Nat
  publishArgs : Option (Str × Str)
  publishResult : Option Bool
  cleanupAttempted : Bool
  fatalError : Option Str
deriving Repr, DecidableEq

/-- Model of `processTenexTask` (source lines 258–331), straight-line translation:
missing transcript, empty inventory, resolution failure, unreadable
descriptor and missing descriptor fields each throw (caught at line 327 as a
fatal error); otherwise the context files are read best-effort, one
synthesis call produces the task content, the first line becomes the title,
the pair is published, and the temporary file is cleaned up regardless of
the publication outcome. -/
def processTenexTask (env : Env) : RunResult :=
  if !env.transcriptExists then
    ⟨0, 0, none, none, false,
      some (strL ("Transcript file not found: ") ++ env.transcriptPath)⟩
  else
    let projectDirs := getProjectDirectories env.readdirResult
    if projectDirs.length == 0 then
      ⟨0, 0, none, none, false,
        some (strL ("No project directories found in ") ++ env.tenexProjectsDir)⟩
    else
      match findProjectNameE (queryOllama env.findRawStdout) projectDirs with
      | Except.error e => ⟨1, 0, none, none, false, some e.thrownMessage⟩
      | Except.ok projectDir =>
        match readTenexConfig projectDir env.tenexConfigFile with
        | Except.error msg => ⟨1, 0, none, none, false, some msg⟩
        | Except.ok cfg =>
          if jsFalsy cfg.nsec || jsFalsy cfg.eventId then
            ⟨1, 0, none, none, false,
              some (strL ("Missing nsec or eventId in .tenex.json"))⟩
          else
            let specContent := readFileIfExists env.specFile
            let architectureContent := readFileIfExists env.architectureFile
            let taskContent := createDetailedTask env.transcriptContent
              specContent architectureContent env.taskRawStdout
            let taskTitle := extractTaskTitle taskContent
            let published := publishNostrEvent env.publishExitCode
            ⟨1, 1, some (taskTitle, taskContent), some published, true, none⟩

/-- A concrete run environment in which every external interaction
succeeds. -/
def envHappy : Env :=
  { transcriptPath := strL ("/tmp/transcript.txt")
    tenexProjectsDir := strL ("/projects")
    transcriptExists := true
    transcriptContent := strL ("work on the Shipyard project")
    readdirResult := some [(strL ("Shipyard-rux5kf"), true), (strL ("Backend-ab12"), true)]
    findRawStdout := strL ("Shipyard-rux5kf\n")
    tenexConfigFile := some { nsec := some (strL ("nsec-secret")), eventId := some (strL ("event-123")) }
    specFile := some (strL ("Spec doc"))
    architectureFile := none
    taskRawStdout := strL ("Add dark mode\nDetailed body text...\n")
    publishExitCode := 0 }

/-- A concrete run environment whose generation response matches no
inventory entry. -/
def envResolutionFail : Env :=
  { envHappy with findRawStdout := strL ("unrelated-name") }

/-- A concrete run environment whose descriptor file has an empty
`eventId`. -/
def envMissingField : Env :=
  { envHappy with
    tenexConfigFile := some { nsec := some (strL ("nsec-secret")), eventId := some [] } }

/-- A concrete run environment whose publication call exits with a non-zero
status. -/
def envPublishFail : Env :=
  { envHappy with publishExitCode := 1 }

/-- A concrete run environment whose workspace root contains no
subdirectories. -/
def envEmptyInventory : Env :=
  { envHappy with readdirResult := some [] }

lemma startsWith_nil (s : Str) : startsWith s [] = true := by
  cases s <;> rfl

lemma splitOnChar_ne_nil (c : Char) (s : Str) : splitOnChar c s ≠ [] := by
  cases s with
  | nil => simp [splitOnChar]
  | cons x xs =>
    simp only [splitOnChar]
    cases hxs : splitOnChar c xs with
    | nil => simp
    | cons h t => by_cases hx : x == c <;> simp [hx]

lemma splitOnChar_headD (c : Char) (s : Str) :
    (splitOnChar c s).headD [] = s.takeWhile (fun x => x != c) := by
  induction s with
  | nil => rfl
  | cons x xs ih =>
    rw [List.takeWhile_cons, splitOnChar]
    cases hxs : splitOnChar c xs with
    | nil => exact absurd hxs (splitOnChar_ne_nil c xs)
    | cons h t =>
      rw [hxs] at ih
      by_cases hx : x == c
      · have : (x != c) = false := by simp [bne, hx]
        simp [hx, this]
      · have : (x != c) = true := by simp [bne]; simpa using hx
        simp [hx, this, ← ih]

lemma matchesDir_refl (R : Str) : matchesDir R R = true := by
  simp [matchesDir]

lemma dropTrailingWS_cons_of_not_ws {c : Char} (l : Str) (h : jsWS c = false) :
    dropTrailingWS (c :: l) = c :: dropTrailingWS l := by
  simp [dropTrailingWS, h]

lemma dropTrailingWS_shape (l : Str) (h : dropTrailingWS l ≠ []) :
    ∃ c l2, l = c :: l2 ∧ dropTrailingWS l = c :: dropTrailingWS l2 := by
  cases l with
  | nil => simp [dropTrailingWS] at h
  | cons c l2 =>
    refine ⟨c, l2, rfl, ?_⟩
    by_cases hc : ((dropTrailingWS l2).isEmpty && jsWS c) = true
    · exfalso
      apply h
      simp only [dropTrailingWS]
      rw [if_pos hc]
    · simp only [dropTrailingWS]
      rw [if_neg (by simpa using hc)]

lemma trimStr_shape (s : Str) (h : trimStr s ≠ []) :
    ∃ c r, trimStr s = c :: r ∧ jsWS c = false := by
  unfold trimStr at h ⊢
  obtain ⟨c, l2, hl, he⟩ := dropTrailingWS_shape _ h
  refine ⟨c, dropTrailingWS l2, he, ?_⟩
  have h2 := List.head?_dropWhile_not jsWS s
  rw [hl] at h2
  simpa using h2

lemma trimStr_cons_not_ws {c : Char} (r : Str) (h : jsWS c = false) :
    trimStr (c :: r) = c :: dropTrailingWS r := by
  unfold trimStr
  rw [List.dropWhile_cons_of_neg (by simp [h])]
  exact dropTrailingWS_cons_of_not_ws r h

lemma processTenexTask_success_shape (env : Env) (d : Str) (cfg : TenexConfig)
    (h1 : env.transcriptExists = true)
    (h2 : getProjectDirectories env.readdirResult ≠ [])
    (h3 : findProjectName (queryOllama env.findRawStdout)
        (getProjectDirectories env.readdirResult) = some d)
    (h4 : env.tenexConfigFile = some cfg)
    (h5 : jsFalsy cfg.nsec = false) (h6 : jsFalsy cfg.eventId = false) :
    processTenexTask env =
      ⟨1, 1,
        some (extractTaskTitle (createDetailedTask env.transcriptContent
            (readFileIfExists env.specFile) (readFileIfExists env.architectureFile)
            env.taskRawStdout),
          createDetailedTask env.transcriptContent (readFileIfExists env.specFile)
            (readFileIfExists env.architectureFile) env.taskRawStdout),
        some (publishNostrEvent env.publishExitCode), true, none⟩ := by
  unfold processTenexTask
  simp only [h1, Bool.not_true, if_false, Bool.false_eq_true]
  rw [if_neg (by simp [List.length_eq_zero, h2])]
  simp only [findProjectNameE, h3, readTenexConfig, h4]
  rw [if_neg (by simp [h5, h6])]

lemma processTenexTask_resolution_fail_shape (env : Env)
    (h1 : env.transcriptExists = true)
    (h2 : getProjectDirectories env.readdirResult ≠ [])
    (h3 : findProjectName (queryOllama env.findRawStdout)
        (getProjectDirectories env.readdirResult) = none) :
    processTenexTask env =
      ⟨1, 0, none, none, false,
        some (strL ("Could not identify project directory"))⟩ := by
  unfold processTenexTask
  simp only [h1, Bool.not_true, if_false, Bool.false_eq_true]
  rw [if_neg (by simp [List.length_eq_zero, h2])]
  simp only [findProjectNameE, h3]

/-- C1: the claim states the four rules are applied in priority order with
exact match taking precedence over prefix matches on other entries. This is
false: with inventory ["Ship", "Shipyard"] and response "Shipyard", the
matcher returns the earlier entry "Ship" (which satisfies prefix rule (d))
even though "Shipyard" is an exact-match entry of the inventory. -/
theorem exact_match_loses_to_earlier_prefix_entry :
    strL ("Shipyard") ∈ [strL ("Ship"), strL ("Shipyard")] ∧
    strL ("Ship") ≠ strL ("Shipyard") ∧
    findProjectName (strL ("Shipyard")) [strL ("Ship"), strL ("Shipyard")] =
      some (strL ("Ship")) := by
  decide

/-- C1 (amended): the matcher scans inventory entries in order and returns
the first entry satisfying the disjunction of the four rules; consequently,
when no inventory entry other than R itself satisfies any of the rules, the
exact-match entry R is chosen. -/
theorem findProjectName_first_entry_disjunction (R : Str) (I : List Str)
    (hall : ∀ d ∈ I, matchesDir R d = true → d = R) (hmem : R ∈ I) :
    findProjectName R I = some R ∧
    ∀ d J, findProjectName R (d :: J) =
      (if matchesDir R d then some d else findProjectName R J) := by
  constructor
  · induction I with
    | nil => cases hmem
    | cons d rest ih =>
      by_cases hd : matchesDir R d = true
      · have hdR : d = R := hall d (List.mem_cons_self d rest) hd
        unfold findProjectName
        rw [List.find?_cons_of_pos _ hd, hdR]
      · have hR : R ∈ rest := by
          rcases List.mem_cons.mp hmem with h | h
          · exact absurd (h ▸ matchesDir_refl R) hd
          · exact h
        have step := ih (fun x hx hmatch => hall x (List.mem_cons_of_mem _ hx) hmatch) hR
        unfold findProjectName at step ⊢
        rw [List.find?_cons_of_neg _ hd, step]
  · intro d J
    by_cases hd : matchesDir R d = true
    · unfold findProjectName
      rw [List.find?_cons_of_pos _ hd, if_pos hd]
    · unfold findProjectName
      rw [List.find?_cons_of_neg _ hd, if_neg hd]

/-- C1 witness: with inventory ["Backend-ab12", "Shipyard"] no entry other
than "Shipyard" satisfies any rule against the response "Shipyard", so the
exact-match entry is chosen. -/
theorem findProjectName_first_entry_disjunction_witness :
    (∀ d ∈ [strL ("Backend-ab12"), strL ("Shipyard")],
        matchesDir (strL ("Shipyard")) d = true → d = strL ("Shipyard")) ∧
    strL ("Shipyard") ∈ [strL ("Backend-ab12"), strL ("Shipyard")] ∧
    findProjectName (strL ("Shipyard")) [strL ("Backend-ab12"), strL ("Shipyard")] =
      some (strL ("Shipyard")) := by
  refine ⟨by decide, by decide, ?_⟩
  exact (findProjectName_first_entry_disjunction (strL ("Shipyard"))
    [strL ("Backend-ab12"), strL ("Shipyard")] (by decide) (by decide)).1

/-- C2: the claim states that the response "shipyard" resolves against the
inventory ["Shipyard-rux5kf"]. This is false: every matching rule is
case-sensitive on this pair (the case-insensitive equality of rule (b) fails
because of the "-rux5kf" suffix), so resolution fails. -/
theorem lowercase_shipyard_does_not_resolve :
    findProjectName (strL ("shipyard")) [strL ("Shipyard-rux5kf")] = none := by
  decide

/-- C2 (amended): the response "shipyard" does not resolve against
["Shipyard-rux5kf"] — rule (d) compares the leading segment "Shipyard"
case-sensitively against the response — whereas the case-matching response
"Shipyard" does resolve to "Shipyard-rux5kf". -/
theorem shipyard_resolution_is_case_sensitive :
    findProjectName (strL ("shipyard")) [strL ("Shipyard-rux5kf")] = none ∧
    firstSegment (strL ("Shipyard-rux5kf")) = strL ("Shipyard") ∧
    startsWith (strL ("shipyard")) (strL ("Shipyard")) = false ∧
    findProjectName (strL ("Shipyard")) [strL ("Shipyard-rux5kf")] =
      some (strL ("Shipyard-rux5kf")) := by
  decide

/-- C3: the claim states the resolution failure carries the raw response and
the inventory size. The thrown error is a fixed message, and the failure
data is identical for failing inventories of size two and size one, so it
cannot carry the inventory size. -/
theorem resolution_error_ignores_inventory_size :
    findProjectNameE (strL ("unrelated-name"))
        [strL ("Shipyard-rux5kf"), strL ("Backend-ab12")] =
      Except.error
        { logMessage := strL ("Could not match response \"unrelated-name\" to any project directory")
          thrownMessage := strL ("Could not identify project directory") } ∧
    findProjectNameE (strL ("unrelated-name"))
        [strL ("Shipyard-rux5kf"), strL ("Backend-ab12")] =
      findProjectNameE (strL ("unrelated-name")) [strL ("Shipyard-rux5kf")] := by
  exact ⟨rfl, rfl⟩

/-- C3 (amended): when no inventory entry matches, resolution fails with an
error whose diagnostic log line carries the raw response but whose payload
is independent of the inventory (so it carries neither the inventory nor its
size), and the failure is not retried: the run performs exactly one resolver
call, no synthesis call, no publication, and aborts fatally. -/
theorem resolution_failure_aborts_without_retry (resp : Str) (dirs : List Str)
    (env : Env)
    (hnone : findProjectName resp dirs = none)
    (h1 : env.transcriptExists = true)
    (hdirs : getProjectDirectories env.readdirResult = dirs)
    (h2 : dirs ≠ [])
    (hresp : queryOllama env.findRawStdout = resp) :
    (∃ e : ResolutionError,
        findProjectNameE resp dirs = Except.error e ∧
        List.IsInfix resp e.logMessage ∧
        e.thrownMessage = strL ("Could not identify project directory") ∧
        ∀ dirs2, findProjectName resp dirs2 = none →
          findProjectNameE resp dirs2 = Except.error e) ∧
    processTenexTask env =
      ⟨1, 0, none, none, false,
        some (strL ("Could not identify project directory"))⟩ := by
  constructor
  · have he : findProjectNameE resp dirs = Except.error
        { logMessage := strL ("Could not match response \"") ++ resp ++
            strL ("\" to any project directory")
          thrownMessage := strL ("Could not identify project directory") } := by
      simp [findProjectNameE, hnone]
    refine ⟨_, he, ⟨strL ("Could not match response \""),
      strL ("\" to any project directory"), rfl⟩, rfl, ?_⟩
    intro dirs2 h2n
    simp [findProjectNameE, h2n]
  · exact processTenexTask_resolution_fail_shape env h1
      (by rw [hdirs]; exact h2) (by rw [hdirs, hresp]; exact hnone)

/-- C3 witness: the concrete no-match run performs one resolver call and
aborts with the fixed resolution-failure message. -/
theorem resolution_failure_aborts_without_retry_witness :
    (findProjectName (strL ("unrelated-name"))
        [strL ("Shipyard-rux5kf"), strL ("Backend-ab12")] = none ∧
      envResolutionFail.transcriptExists = true ∧
      getProjectDirectories envResolutionFail.readdirResult =
        [strL ("Shipyard-rux5kf"), strL ("Backend-ab12")] ∧
      [strL ("Shipyard-rux5kf"), strL ("Backend-ab12")] ≠ ([] : List Str) ∧
      queryOllama envResolutionFail.findRawStdout = strL ("unrelated-name")) ∧
    processTenexTask envResolutionFail =
      ⟨1, 0, none, none, false,
        some (strL ("Could not identify project directory"))⟩ := by
  refine ⟨⟨by decide, by decide, by decide, by decide, by decide⟩, ?_⟩
  exact (resolution_failure_aborts_without_retry (strL ("unrelated-name"))
    [strL ("Shipyard-rux5kf"), strL ("Backend-ab12")] envResolutionFail
    (by decide) (by decide) (by decide) (by decide) (by decide)).2

/-- C4: for every generated task text the extracted title is line zero (the
prefix of the text up to its first line break, or all of it when it has
none), and the (title, body) pair handed to the publication call consists of
that title and the entire original task content, including the title line. -/
theorem task_title_is_line_zero_and_body_is_full_text (T : Str) (env : Env)
    (d : Str) (cfg : TenexConfig)
    (h1 : env.transcriptExists = true)
    (h2 : getProjectDirectories env.readdirResult ≠ [])
    (h3 : findProjectName (queryOllama env.findRawStdout)
        (getProjectDirectories env.readdirResult) = some d)
    (h4 : env.tenexConfigFile = some cfg)
    (h5 : jsFalsy cfg.nsec = false) (h6 : jsFalsy cfg.eventId = false) :
    extractTaskTitle T = T.takeWhile (fun c => c != '\n') ∧
    (processTenexTask env).publishArgs = some
      (extractTaskTitle (createDetailedTask env.transcriptContent
          (readFileIfExists env.specFile) (readFileIfExists env.architectureFile)
          env.taskRawStdout),
        createDetailedTask env.transcriptContent (readFileIfExists env.specFile)
          (readFileIfExists env.architectureFile) env.taskRawStdout) := by
  refine ⟨splitOnChar_headD '\n' T, ?_⟩
  rw [processTenexTask_success_shape env d cfg h1 h2 h3 h4 h5 h6]

/-- C4 witness: in the concrete happy-path run the published title is
"Add dark mode" and the published body is the full task text including the
title line. -/
theorem task_title_is_line_zero_and_body_is_full_text_witness :
    (envHappy.transcriptExists = true ∧
      getProjectDirectories envHappy.readdirResult ≠ [] ∧
      findProjectName (queryOllama envHappy.findRawStdout)
        (getProjectDirectories envHappy.readdirResult) =
          some (strL ("Shipyard-rux5kf")) ∧
      envHappy.tenexConfigFile =
        some { nsec := some (strL ("nsec-secret")), eventId := some (strL ("event-123")) } ∧
      jsFalsy (some (strL ("nsec-secret"))) = false ∧
      jsFalsy (some (strL ("event-123"))) = false) ∧
    extractTaskTitle (strL ("Add dark mode\nDetailed body text...")) =
      (strL ("Add dark mode\nDetailed body text...")).takeWhile (fun c => c != '\n') ∧
    (processTenexTask envHappy).publishArgs = some
      (extractTaskTitle (createDetailedTask envHappy.transcriptContent
          (readFileIfExists envHappy.specFile) (readFileIfExists envHappy.architectureFile)
          envHappy.taskRawStdout),
        createDetailedTask envHappy.transcriptContent (readFileIfExists envHappy.specFile)
          (readFileIfExists envHappy.architectureFile) envHappy.taskRawStdout) := by
  refine ⟨⟨by decide, by decide, by decide, by decide, by decide, by decide⟩, ?_⟩
  exact task_title_is_line_zero_and_body_is_full_text
    (strL ("Add dark mode\nDetailed body text...")) envHappy
    (strL ("Shipyard-rux5kf")) _ (by decide) (by decide) (by decide) rfl
    (by decide) (by decide)

/-- C5: when the resolved project descriptor is readable but either required
field is absent or empty, the run aborts with the missing-field
configuration error after the single resolver call: no task-synthesis
generation call and no publication call is ever attempted. -/
theorem missing_config_fields_abort_before_generation (env : Env) (d : Str)
    (cfg : TenexConfig)
    (h1 : env.transcriptExists = true)
    (h2 : getProjectDirectories env.readdirResult ≠ [])
    (h3 : findProjectName (queryOllama env.findRawStdout)
        (getProjectDirectories env.readdirResult) = some d)
    (h4 : env.tenexConfigFile = some cfg)
    (h5 : (jsFalsy cfg.nsec || jsFalsy cfg.eventId) = true) :
    processTenexTask env =
      ⟨1, 0, none, none, false,
        some (strL ("Missing nsec or eventId in .tenex.json"))⟩ := by
  unfold processTenexTask
  simp only [h1, Bool.not_true, if_false, Bool.false_eq_true]
  rw [if_neg (by simp [List.length_eq_zero, h2])]
  simp only [findProjectNameE, h3, readTenexConfig, h4]
  rw [if_pos h5]

/-- C5 witness: with an empty `eventId` in the descriptor the concrete run
aborts with the missing-field error, having made no synthesis call and no
publication attempt. -/
theorem missing_config_fields_abort_before_generation_witness :
    (envMissingField.transcriptExists = true ∧
      getProjectDirectories envMissingField.readdirResult ≠ [] ∧
      findProjectName (queryOllama envMissingField.findRawStdout)
        (getProjectDirectories envMissingField.readdirResult) =
          some (strL ("Shipyard-rux5kf")) ∧
      envMissingField.tenexConfigFile =
        some { nsec := some (strL ("nsec-secret")), eventId := some [] } ∧
      (jsFalsy (some (strL ("nsec-secret"))) || jsFalsy (some ([] : Str))) = true) ∧
    processTenexTask envMissingField =
      ⟨1, 0, none, none, false,
        some (strL ("Missing nsec or eventId in .tenex.json"))⟩ := by
  refine ⟨⟨by decide, by decide, by decide, by decide, by decide⟩, ?_⟩
  exact missing_config_fields_abort_before_generation envMissingField
    (strL ("Shipyard-rux5kf")) _ (by decide) (by decide) (by decide) rfl (by decide)

lemma isEmpty_false_of_ne_nil {l : Str} (h : l ≠ []) : l.isEmpty = false := by
  cases l with
  | nil => exact absurd rfl h
  | cons x xs => rfl

/-- C6: a missing optional supporting document yields empty content rather
than an error, and the labeled context blocks of the task-synthesis prompt
are exactly those of the non-empty documents, specification first, then
architecture: no block when both are empty, only the non-empty one when
exactly one exists, and both in order when both exist. -/
theorem optional_documents_context_blocks (s a : Str)
    (hs : s ≠ []) (ha : a ≠ []) :
    readFileIfExists none = [] ∧
    (contextInfo [] [] = [] ∧ contextSection [] [] = []) ∧
    (contextInfo s [] = [strL ("<SPEC>\n") ++ s ++ strL ("</SPEC>")] ∧
      contextSection s [] =
        strL ("\nFor context, here are the project\x27s specification and architecture documents:\n\n") ++
          (strL ("<SPEC>\n") ++ s ++ strL ("</SPEC>"))) ∧
    (contextInfo [] a = [strL ("<ARCHITECTURE>\n") ++ a ++ strL ("</ARCHITECTURE>")] ∧
      contextSection [] a =
        strL ("\nFor context, here are the project\x27s specification and architecture documents:\n\n") ++
          (strL ("<ARCHITECTURE>\n") ++ a ++ strL ("</ARCHITECTURE>"))) ∧
    (contextInfo s a =
        [strL ("<SPEC>\n") ++ s ++ strL ("</SPEC>"),
          strL ("<ARCHITECTURE>\n") ++ a ++ strL ("</ARCHITECTURE>")] ∧
      contextSection s a =
        strL ("\nFor context, here are the project\x27s specification and architecture documents:\n\n") ++
          ((strL ("<SPEC>\n") ++ s ++ strL ("</SPEC>")) ++ strL ("\n\n") ++
            (strL ("<ARCHITECTURE>\n") ++ a ++ strL ("</ARCHITECTURE>")))) := by
  have hs2 : s.isEmpty = false := isEmpty_false_of_ne_nil hs
  have ha2 : a.isEmpty = false := isEmpty_false_of_ne_nil ha
  refine ⟨rfl, ⟨rfl, rfl⟩, ⟨?_, ?_⟩, ⟨?_, ?_⟩, ⟨?_, ?_⟩⟩ <;>
    simp [contextInfo, contextSection, hs2, ha2, joinSep]

/-- C6 witness: with both documents non-empty the context block list holds
the specification block first and the architecture block second. -/
theorem optional_documents_context_blocks_witness :
    (strL ("S") ≠ [] ∧ strL ("A") ≠ []) ∧
    contextInfo (strL ("S")) (strL ("A")) =
      [strL ("<SPEC>\n") ++ strL ("S") ++ strL ("</SPEC>"),
        strL ("<ARCHITECTURE>\n") ++ strL ("A") ++ strL ("</ARCHITECTURE>")] := by
  refine ⟨⟨by decide, by decide⟩, ?_⟩
  exact (optional_documents_context_blocks (strL ("S")) (strL ("A"))
    (by decide) (by decide)).2.2.2.2.1

/-- C7: a publication call exiting with non-zero status is reported to the
caller as the failure value `false` rather than aborting the run: the
pipeline records the failed publication, still reaches its cleanup of the
temporary task file, and finishes without a fatal error. -/
theorem failed_publication_reported_and_cleanup_runs (env : Env) (d : Str)
    (cfg : TenexConfig)
    (h1 : env.transcriptExists = true)
    (h2 : getProjectDirectories env.readdirResult ≠ [])
    (h3 : findProjectName (queryOllama env.findRawStdout)
        (getProjectDirectories env.readdirResult) = some d)
    (h4 : env.tenexConfigFile = some cfg)
    (h5 : jsFalsy cfg.nsec = false) (h6 : jsFalsy cfg.eventId = false)
    (h7 : env.publishExitCode ≠ 0) :
    publishNostrEvent env.publishExitCode = false ∧
    (processTenexTask env).publishResult = some false ∧
    (processTenexTask env).cleanupAttempted = true ∧
    (processTenexTask env).fatalError = none := by
  have hpub : publishNostrEvent env.publishExitCode = false := by
    simp [publishNostrEvent, h7]
  rw [processTenexTask_success_shape env d cfg h1 h2 h3 h4 h5 h6]
  exact ⟨hpub, by rw [hpub], rfl, rfl⟩

/-- C7 witness: the concrete run whose publication tool exits with status 1
reports a failed publication, attempts the cleanup, and does not abort. -/
theorem failed_publication_reported_and_cleanup_runs_witness :
    (envPublishFail.transcriptExists = true ∧
      getProjectDirectories envPublishFail.readdirResult ≠ [] ∧
      findProjectName (queryOllama envPublishFail.findRawStdout)
        (getProjectDirectories envPublishFail.readdirResult) =
          some (strL ("Shipyard-rux5kf")) ∧
      envPublishFail.tenexConfigFile =
        some { nsec := some (strL ("nsec-secret")), eventId := some (strL ("event-123")) } ∧
      jsFalsy (some (strL ("nsec-secret"))) = false ∧
      jsFalsy (some (strL ("event-123"))) = false ∧
      envPublishFail.publishExitCode ≠ 0) ∧
    publishNostrEvent envPublishFail.publishExitCode = false ∧
    (processTenexTask envPublishFail).publishResult = some false ∧
    (processTenexTask envPublishFail).cleanupAttempted = true ∧
    (processTenexTask envPublishFail).fatalError = none := by
  refine ⟨⟨by decide, by decide, by decide, by decide, by decide, by decide, by decide⟩, ?_⟩
  exact failed_publication_reported_and_cleanup_runs envPublishFail
    (strL ("Shipyard-rux5kf")) _ (by decide) (by decide) (by decide) rfl
    (by decide) (by decide) (by decide)

/-- C8: the directory inventory returns an empty sequence, not an error,
when the workspace root is unreadable or holds no subdirectories, and every
run with an empty inventory aborts fatally before any generation call —
resolver and synthesis call counts are both zero. -/
theorem empty_inventory_aborts_before_generation (entries : List (Str × Bool))
    (env : Env)
    (hnd : ∀ e ∈ entries, e.2 = false)
    (hempty : getProjectDirectories env.readdirResult = []) :
    getProjectDirectories none = [] ∧
    getProjectDirectories (some entries) = [] ∧
    (processTenexTask env).resolverCalls = 0 ∧
    (processTenexTask env).synthesisCalls = 0 ∧
    (processTenexTask env).publishArgs = none ∧
    (processTenexTask env).fatalError ≠ none := by
  have hfilter : entries.filter (fun e => e.2) = [] := by
    rw [List.filter_eq_nil_iff]
    intro e he
    simp [hnd e he]
  have hpipe : (processTenexTask env).resolverCalls = 0 ∧
      (processTenexTask env).synthesisCalls = 0 ∧
      (processTenexTask env).publishArgs = none ∧
      (processTenexTask env).fatalError ≠ none := by
    cases h1 : env.transcriptExists with
    | false =>
      unfold processTenexTask
      rw [h1]
      simp
    | true =>
      unfold processTenexTask
      rw [h1]
      simp [hempty]
  exact ⟨rfl, by simp [getProjectDirectories, hfilter], hpipe.1, hpipe.2.1,
    hpipe.2.2.1, hpipe.2.2.2⟩

/-- C8 witness: a root holding only a plain file yields an empty inventory,
and the concrete empty-inventory run aborts with zero generation calls. -/
theorem empty_inventory_aborts_before_generation_witness :
    ((∀ e ∈ [(strL ("notes.txt"), false)], e.2 = false) ∧
      getProjectDirectories envEmptyInventory.readdirResult = []) ∧
    getProjectDirectories (some [(strL ("notes.txt"), false)]) = [] ∧
    (processTenexTask envEmptyInventory).resolverCalls = 0 ∧
    (processTenexTask envEmptyInventory).synthesisCalls = 0 ∧
    (processTenexTask envEmptyInventory).fatalError ≠ none := by
  have h := empty_inventory_aborts_before_generation
    [(strL ("notes.txt"), false)] envEmptyInventory (by decide) (by decide)
  exact ⟨⟨by decide, by decide⟩, h.2.1, h.2.2.1, h.2.2.2.1, h.2.2.2.2.2⟩

/-- C9: the empty response satisfies the "identifier starts with the
response" rule against every identifier, so resolution of the empty string
against a non-empty inventory never fails: it returns the first entry. -/
theorem empty_response_resolves_to_first_entry (d : Str) (rest : List Str) :
    startsWith d [] = true ∧ findProjectName [] (d :: rest) = some d := by
  refine ⟨startsWith_nil d, ?_⟩
  unfold findProjectName
  exact List.find?_cons_of_pos rest (by simp [matchesDir, startsWith_nil])

/-- C10: the claim states that every non-empty generation output yields a
non-empty title line. This is false for outputs consisting solely of
whitespace: the output " " is non-empty, yet after trimming, the task
content and its extracted title are both empty. -/
theorem whitespace_output_yields_empty_title :
    strL (" ") ≠ [] ∧
    createDetailedTask [] [] [] (strL (" ")) = [] ∧
    extractTaskTitle (createDetailedTask [] [] [] (strL (" "))) = [] := by
  decide

/-- C10 (amended): the generated task text is trimmed before title
extraction, so whenever the generation output contains any non-whitespace
character (its trim is non-empty), the extracted title is a non-empty line
whose first character is not whitespace — the title is never taken from a
leading blank line. -/
theorem trimmed_output_title_nonempty (t s a raw : Str)
    (h : trimStr raw ≠ []) :
    createDetailedTask t s a raw = trimStr (trimStr raw) ∧
    extractTaskTitle (createDetailedTask t s a raw) ≠ [] ∧
    jsWS ((extractTaskTitle (createDetailedTask t s a raw)).headD ' ') = false := by
  obtain ⟨c, r, he, hws⟩ := trimStr_shape raw h
  have hnl : (c != '\n') = true := by
    have hne : ¬ c = '\n' := by
      intro hc
      rw [hc] at hws
      simp [jsWS] at hws
    simpa [bne] using hne
  have h1 : createDetailedTask t s a raw = trimStr (trimStr raw) := rfl
  have h2 : trimStr (trimStr raw) = c :: dropTrailingWS r := by
    rw [he]
    exact trimStr_cons_not_ws r hws
  have h3 : extractTaskTitle (c :: dropTrailingWS r) =
      c :: (dropTrailingWS r).takeWhile (fun x => x != '\n') := by
    show (splitOnChar '\n' (c :: dropTrailingWS r)).headD [] = _
    rw [splitOnChar_headD]
    exact List.takeWhile_cons_of_pos hnl
  refine ⟨h1, ?_, ?_⟩
  · rw [h1, h2, h3]
    simp
  · rw [h1, h2, h3]
    simpa using hws

/-- C10 witness: a generation output with leading whitespace and a trailing
blank still yields the non-blank first line as a non-empty title. -/
theorem trimmed_output_title_nonempty_witness :
    trimStr (strL ("  A title\nBody ")) ≠ [] ∧
    extractTaskTitle (createDetailedTask [] [] [] (strL ("  A title\nBody "))) ≠ [] ∧
    jsWS ((extractTaskTitle (createDetailedTask [] [] [] (strL ("  A title\nBody ")))).headD ' ') = false := by
  refine ⟨by decide, ?_, ?_⟩
  · exact (trimmed_output_title_nonempty [] [] []
      (strL ("  A title\nBody ")) (by decide)).2.1
  · exact (trimmed_output_title_nonempty [] [] []
      (strL ("  A title\nBody ")) (by decide)).2.2
